import Mathlib

/-!
# Verification of `v2ray_config_generator.py`

Shallow embedding of the configuration-generation core of
`src/v2ray_config_generator.py` and proofs about the spec's claims.

Modelling conventions:
* a Python dict holding a decoded VMess server JSON record becomes a
  structure whose fields are `Option`-valued (`none` = key absent);
* functions that can raise (`KeyError` from `d["k"]`, `IndexError` from
  `list[i]`) return `Option`, `none` standing for the uncaught exception;
* the JSON documents produced by the script become structures that keep
  the dict keys as fields; heterogeneous JSON lists become inductives;
* Python's insertion-ordered dicts whose keys are pairwise distinct by
  construction become ordered association lists.
-/

/-- The `mux` sub-record of a decoded VMess server JSON record. -/
structure MuxCfg where
  enabled : Option Bool := none
  concurrency : Option Int := none
deriving DecidableEq

/-- One decoded VMess server JSON record (the result of `json.loads` on a
`vmess://` payload).  `none` means the key is absent from the dict.
`port` and `aid` hold the `int(...)`-converted values. -/
structure ServerCfg where
  add : Option String := none
  port : Option Int := none
  id : Option String := none
  aid : Option Int := none
  scy : Option String := none
  net : Option String := none
  tls : Option String := none
  sni : Option String := none
  host : Option String := none
  path : Option String := none
  ps : Option String := none
  alpn : Option String := none
  mux : Option MuxCfg := none
deriving DecidableEq

/-- `DEFAULT_SOCKS_PORT = 50001` (line 29 of the source). -/
def DEFAULT_SOCKS_PORT : Int := 50001

/-- `DEFAULT_HTTP_PORT = 51001` (line 30 of the source). -/
def DEFAULT_HTTP_PORT : Int := 51001

/-- `DEFAULT_OUT_SERVER_INDEX = 29` (line 31 of the source). -/
def DEFAULT_OUT_SERVER_INDEX : Nat := 29

/-- The TLS settings dict produced by `create_tls_settings`;
`alpn := none` means the `"alpn"` key is absent. -/
structure TlsSettings where
  serverName : String
  allowInsecure : Bool
  alpn : Option (List String) := none
deriving DecidableEq

/-- `create_tls_settings` (lines 111-121): server name is
`server_config.get("sni", server_config.get("host", ""))`, `allowInsecure`
is always `False`, and the `alpn` key is added only when the `"alpn"` value
is truthy (present and a non-empty string), split on commas. -/
def create_tls_settings (server_config : ServerCfg) : TlsSettings :=
  let tls_settings : TlsSettings :=
    { serverName := server_config.sni.getD (server_config.host.getD ""),
      allowInsecure := false }
  match server_config.alpn with
  | some a => if a ≠ "" then { tls_settings with alpn := some (a.splitOn ",") } else tls_settings
  | none => tls_settings

/-- The log dict produced by `create_log_config`. -/
structure LogConfig where
  access : String
  error : String
  loglevel : String
deriving DecidableEq

/-- `create_log_config` (lines 124-126). -/
def create_log_config : LogConfig :=
  { access := "", error := "", loglevel := "warning" }

/-- One entry of the `"servers"` list of the dns dict: either a bare address
string or a detailed dict (`expectIPs := none` = key absent). -/
inductive DnsServer where
  | plain (address : String)
  | detailed (address : String) (skipFallback : Bool) (domains : List String)
      (expectIPs : Option (List String))
deriving DecidableEq

/-- The dns dict produced by `create_dns_config`. -/
structure DnsConfig where
  hosts : List (String × String)
  servers : List DnsServer
deriving DecidableEq

/-- `create_dns_config` (lines 129-167). -/
def create_dns_config : DnsConfig :=
  { hosts := [("dns.google", "8.8.8.8"), ("proxy.example.com", "127.0.0.1")],
    servers :=
      [ DnsServer.detailed "1.1.1.1" true ["domain:googleapis.cn", "domain:gstatic.com"] none,
        DnsServer.detailed "223.5.5.5" true ["geosite:cn", "geosite:geolocation-cn"]
          (some ["geoip:cn"]),
        DnsServer.plain "1.1.1.1",
        DnsServer.plain "8.8.8.8",
        DnsServer.plain "https://dns.google/dns-query",
        DnsServer.detailed "223.5.5.5" true ["tanz-board.01byx31qzn.download"] none ] }

/-- The `"sniffing"` dict of an inbound. -/
structure Sniffing where
  enabled : Bool
  destOverride : List String
  routeOnly : Bool
deriving DecidableEq

/-- The `"settings"` dict of an inbound. -/
structure InboundSettings where
  auth : String
  udp : Bool
  allowTransparent : Bool
deriving DecidableEq

/-- One inbound dict. -/
structure Inbound where
  tag : String
  port : Int
  listen : String
  protocol : String
  sniffing : Sniffing
  settings : InboundSettings
deriving DecidableEq

/-- `create_inbounds_config` (lines 170-207): for the i-th server, one SOCKS5
inbound on `socks_port_start + i` and one HTTP inbound on
`http_port_start + i`, both with identical sniffing and settings dicts. -/
def create_inbounds_config (vmess_servers : List ServerCfg)
    (socks_port_start http_port_start : Int) (listen_address : String) : List Inbound :=
  (List.range vmess_servers.length).flatMap fun i =>
    let socks_port : Int := socks_port_start + i
    let http_port : Int := http_port_start + i
    [ { tag := s!"socks5-{socks_port}", port := socks_port, listen := listen_address,
        protocol := "socks",
        sniffing := { enabled := true, destOverride := ["http", "tls"], routeOnly := false },
        settings := { auth := "noauth", udp := true, allowTransparent := false } },
      { tag := s!"http-{http_port}", port := http_port, listen := listen_address,
        protocol := "http",
        sniffing := { enabled := true, destOverride := ["http", "tls"], routeOnly := false },
        settings := { auth := "noauth", udp := true, allowTransparent := false } } ]

/-- One user entry of a vnext dict. -/
structure VnextUser where
  id : String
  alterId : Int
  email : String
  security : String
deriving DecidableEq

/-- One vnext server dict. -/
structure VnextServer where
  address : String
  port : Int
  users : List VnextUser
deriving DecidableEq

/-- `create_vnext_server_config` (lines 210-225): subscript access to
`"add"`, `"port"`, `"id"`, `"aid"` raises `KeyError` when the key is
missing (↦ `none`); `"scy"` defaults to `"auto"`. -/
def create_vnext_server_config (server_config : ServerCfg) : Option VnextServer :=
  match server_config.add, server_config.port, server_config.id, server_config.aid with
  | some a, some p, some i, some al =>
      some { address := a, port := p,
             users := [{ id := i, alterId := al, email := "t@t.tt",
                         security := server_config.scy.getD "auto" }] }
  | _, _, _, _ => none

/-- The `"wsSettings"` dict of an outbound (`hostHeader` = `headers.Host`). -/
structure WsSettings where
  path : String
  hostHeader : String
deriving DecidableEq

/-- The `"streamSettings"` dict of an outbound; `none` = key absent. -/
structure StreamSettings where
  network : String
  security : String
  wsSettings : Option WsSettings := none
  tlsSettings : Option TlsSettings := none
deriving DecidableEq

/-- The `"mux"` dict of an outbound. -/
structure MuxOut where
  enabled : Bool
  concurrency : Int
deriving DecidableEq

/-- The `"settings"` dict of an outbound: vmess outbounds carry a vnext
list, the `direct` outbound an empty dict, the `block` outbound a
response-type dict. -/
inductive OutboundSettings where
  | vmess (vnext : List VnextServer)
  | freedom
  | blackhole (responseType : String)
deriving DecidableEq

/-- One outbound dict; `streamSettings`/`mux` keys absent (`none`) on the
fixed `direct`/`block` outbounds. -/
structure Outbound where
  tag : String
  protocol : String
  settings : OutboundSettings
  streamSettings : Option StreamSettings := none
  mux : Option MuxOut := none
deriving DecidableEq

/-- `create_single_outbound` (lines 228-268): tag is `server_config["ps"]`
(`KeyError` when missing ↦ `none`), vnext from `create_vnext_server_config`
(its `KeyError` also aborts ↦ `none`); `wsSettings` added when the network
is `"ws"`, `tlsSettings` added when the security is `"tls"`. -/
def create_single_outbound (server_config : ServerCfg) : Option Outbound :=
  match server_config.ps, create_vnext_server_config server_config with
  | some tagv, some vn =>
      let network := server_config.net.getD "tcp"
      let security := server_config.tls.getD "none"
      let ss0 : StreamSettings := { network := network, security := security }
      let ss1 : StreamSettings :=
        if network = "ws" then
          { ss0 with wsSettings := some { path := server_config.path.getD "/",
                                          hostHeader := server_config.host.getD vn.address } }
        else ss0
      let ss2 : StreamSettings :=
        if security = "tls" then
          { ss1 with tlsSettings := some (create_tls_settings server_config) }
        else ss1
      some { tag := tagv, protocol := "vmess",
             settings := OutboundSettings.vmess [vn],
             streamSettings := some ss2,
             mux := some { enabled := (server_config.mux.getD {}).enabled.getD false,
                           concurrency := (server_config.mux.getD {}).concurrency.getD (-1) } }
  | _, _ => none

/-- Maps `f` over a list, the first failure (an uncaught exception inside
the Python list comprehension) aborting the whole computation. -/
def optionMapList {α β : Type} (f : α → Option β) : List α → Option (List β)
  | [] => some []
  | a :: as =>
      match f a with
      | none => none
      | some b =>
          match optionMapList f as with
          | none => none
          | some bs => some (b :: bs)

/-- `create_outbounds_config` (lines 271-291): one vmess outbound per server,
then the fixed `direct` (freedom) and `block` (blackhole, http response)
outbounds appended. -/
def create_outbounds_config (vmess_servers : List ServerCfg) : Option (List Outbound) :=
  (optionMapList create_single_outbound vmess_servers).map fun outbounds =>
    outbounds ++
      [ { tag := "direct", protocol := "freedom", settings := OutboundSettings.freedom },
        { tag := "block", protocol := "blackhole",
          settings := OutboundSettings.blackhole "http" } ]

/-- One routing rule dict; `none` encodes an absent key (and, for
`outboundTag`, also a JSON `null` coming from a missing `"ps"` value, which
`dict.get` returns as `None`). -/
structure Rule where
  type : String := "field"
  inboundTag : Option (List String) := none
  outboundTag : Option String := none
  domain : Option (List String) := none
  ip : Option (List String) := none
  port : Option String := none
  network : Option String := none
deriving DecidableEq

/-- The routing dict. -/
structure RoutingCfg where
  domainStrategy : String
  rules : List Rule
deriving DecidableEq

/-- The literal IP list of the seventh fixed routing rule
(lines 351-391 of the source). -/
def localDnsIPs : List String :=
  ["223.5.5.5", "223.6.6.6", "2400:3200::1", "2400:3200:baba::1", "119.29.29.29",
   "1.12.12.12", "120.53.53.53", "2402:4e00::", "2402:4e00:1::", "180.76.76.76",
   "2400:da00::6666", "114.114.114.114", "114.114.115.115", "114.114.114.119",
   "114.114.115.119", "114.114.114.110", "114.114.115.110", "180.184.1.1",
   "180.184.2.2", "101.226.4.6", "218.30.118.6", "123.125.81.6", "140.207.198.6",
   "1.2.4.8", "210.2.4.8", "52.80.66.66", "117.50.22.22", "2400:7fc0:849e:200::4",
   "2404:c2c0:85d8:901::4", "117.50.10.10", "52.80.52.52", "2400:7fc0:849e:200::8",
   "2404:c2c0:85d8:901::8", "117.50.60.30", "52.80.60.30"]

/-- `create_routing_config` (lines 294-421).  The rules dict literal indexes
`vmess_servers[DEFAULT_OUT_SERVER_INDEX]`, which raises `IndexError` for
lists with at most 29 elements (↦ `none`).  The in-out map dict becomes an
ordered association list (its keys contain the strictly increasing socks
port, hence are pairwise distinct); a map value is `server.get("ps")`,
possibly `None` (↦ `Option`). -/
def create_routing_config (vmess_servers : List ServerCfg)
    (socks_port_start http_port_start : Int) :
    Option (RoutingCfg × List (String × Option String)) :=
  match vmess_servers[DEFAULT_OUT_SERVER_INDEX]? with
  | none => none
  | some chosen =>
      let rules : List Rule :=
        [ { type := "field", inboundTag := some ["api"], outboundTag := some "api" },
          { type := "field", outboundTag := chosen.ps,
            domain := some ["domain:googleapis.cn", "domain:gstatic.com"] },
          { type := "field", port := some "443", network := some "udp",
            outboundTag := some "block" },
          { type := "field", outboundTag := some "direct", ip := some ["geoip:private"] },
          { type := "field", outboundTag := some "direct",
            domain := some ["geosite:cn", "geosite:geolocation-cn"] },
          { type := "field", outboundTag := some "direct",
            domain := some ["domain:alidns.com", "domain:doh.pub", "domain:dot.pub",
                            "domain:360.cn", "domain:onedns.net"] },
          { type := "field", outboundTag := some "direct", ip := some localDnsIPs },
          { type := "field", outboundTag := some "direct", ip := some ["geoip:cn"] } ]
      let node_rules : List Rule := vmess_servers.enum.map fun (i, server) =>
        let socks_port : Int := socks_port_start + i
        let http_port : Int := http_port_start + i
        { type := "field",
          inboundTag := some [s!"socks5-{socks_port}", s!"http-{http_port}"],
          outboundTag := server.ps }
      let in_out_map : List (String × Option String) := vmess_servers.enum.map fun (i, server) =>
        let socks_port : Int := socks_port_start + i
        let http_port : Int := http_port_start + i
        (s!"socks5-{socks_port} / http-{http_port}", server.ps)
      some ({ domainStrategy := "AsIs", rules := rules ++ node_rules }, in_out_map)

/-- The whole config document. -/
structure V2rayConfig where
  log : LogConfig
  dns : DnsConfig
  inbounds : List Inbound
  outbounds : List Outbound
  routing : RoutingCfg
deriving DecidableEq

/-- `build_v2ray_config` (lines 424-446): the routing config (computed
first) and the outbounds can both raise (↦ `none` aborts the build). -/
def build_v2ray_config (vmess_servers : List ServerCfg) (socks_port http_port : Int)
    (listen_address : String) : Option (V2rayConfig × List (String × Option String)) :=
  match create_routing_config vmess_servers socks_port http_port,
        create_outbounds_config vmess_servers with
  | some (routing_config, in_out_map), some outbounds =>
      some ({ log := create_log_config,
              dns := create_dns_config,
              inbounds := create_inbounds_config vmess_servers socks_port http_port
                listen_address,
              outbounds := outbounds,
              routing := routing_config }, in_out_map)
  | _, _ => none

/-- Python's `url.startswith("vmess://")`.  Python strings are codepoint
sequences, so the check compares the first 8 codepoints. -/
def startswith_vmess (url : String) : Bool := url.data.take 8 == "vmess://".data

/-- Python's `url[8:]` (codepoint slicing past the `"vmess://"` scheme). -/
def url_payload (url : String) : String := String.mk (url.data.drop 8)

/-- Outcome of the library pipeline
`json.loads(base64.b64decode(payload).decode('utf-8'))` on one payload:
`ok` = a parsed record; `caught` = an exception listed in the per-URI
`except` clause of line 95 (`json.JSONDecodeError`, `base64.binascii.Error`);
`uncaught` = any other exception, notably the `UnicodeDecodeError` that
line 92's `.decode('utf-8')` raises on valid base64 of non-UTF-8 bytes
(e.g. payload `"/w=="`, the byte 0xFF), which the per-URI clause does not
list. -/
inductive DecodeResult where
  | ok (server_config : ServerCfg)
  | caught
  | uncaught
deriving DecidableEq

/-- The per-URL loop of `extract_vmess_servers_from_subscription`
(lines 87-97), with the payload pipeline abstracted as `decode_vmess`.
An `ok` record is appended in order; a `caught` failure is recorded as a
skip (the printed `Skipping invalid VMess URL` branch) and the loop
continues; an `uncaught` failure propagates out of the inner `try` to the
function's outer `except Exception` (line 107), whose `sys.exit` aborts
the whole run with no output (↦ `none`); lines with any other scheme are
silently ignored.  Returns `some (servers, skipped lines)` or `none` on
abort. -/
def extract_vmess_servers (decode_vmess : String → DecodeResult) :
    List String → Option (List ServerCfg × List String)
  | [] => some ([], [])
  | url :: rest =>
      if startswith_vmess url then
        match decode_vmess (url_payload url) with
        | DecodeResult.ok server_config =>
            (extract_vmess_servers decode_vmess rest).map
              (fun p => (server_config :: p.1, p.2))
        | DecodeResult.caught =>
            (extract_vmess_servers decode_vmess rest).map
              (fun p => (p.1, url :: p.2))
        | DecodeResult.uncaught => none
      else extract_vmess_servers decode_vmess rest

/-- A sample well-formed server record used for concrete witnesses. -/
def sampleServer (i : Nat) : ServerCfg :=
  { add := some "example.com", port := some 443, id := some "0000-1111",
    aid := some 0, ps := some s!"node-{i}" }

/-- Thirty sample servers: the smallest count the routing builder accepts. -/
def sampleServers : List ServerCfg := (List.range 30).map sampleServer

/-- A server record with the required `"add"` key missing. -/
def missingAddServer : ServerCfg :=
  { port := some 443, id := some "0000-1111", aid := some 0, ps := some "no-address" }

/-- A decode stub mapping the payload `"payload"` to `missingAddServer`. -/
def decodeMissingAdd (s : String) : DecodeResult :=
  if s = "payload" then DecodeResult.ok missingAddServer else DecodeResult.caught

/-- Thirty sample servers where the first two share the display name `"A"`. -/
def dupNameServers : List ServerCfg :=
  ({ sampleServer 0 with ps := some "A" }) :: ({ sampleServer 1 with ps := some "A" }) ::
    (List.range 28).map (fun i => sampleServer (i + 2))

lemma optionMapList_length {α β : Type} (f : α → Option β) (l : List α) (bs : List β)
    (h : optionMapList f l = some bs) : bs.length = l.length := by
  induction l generalizing bs with
  | nil =>
      simp only [optionMapList, Option.some.injEq] at h
      subst h
      rfl
  | cons a as ih =>
      simp only [optionMapList] at h
      cases hfa : f a with
      | none => rw [hfa] at h; cases h
      | some b =>
          rw [hfa] at h
          cases hrec : optionMapList f as with
          | none => rw [hrec] at h; cases h
          | some bs2 =>
              rw [hrec] at h
              simp only [Option.some.injEq] at h
              subst h
              simp [ih bs2 hrec]

lemma optionMapList_isSome {α β : Type} (f : α → Option β) (l : List α)
    (h : ∀ a ∈ l, (f a).isSome) : ∃ bs, optionMapList f l = some bs := by
  induction l with
  | nil => exact ⟨[], rfl⟩
  | cons a as ih =>
      obtain ⟨b, hb⟩ := Option.isSome_iff_exists.mp (h a (List.mem_cons_self a as))
      obtain ⟨bs, hbs⟩ := ih (fun x hx => h x (List.mem_cons_of_mem a hx))
      exact ⟨b :: bs, by simp only [optionMapList, hb, hbs]⟩

lemma create_single_outbound_isSome (s : ServerCfg)
    (h : s.add.isSome ∧ s.port.isSome ∧ s.id.isSome ∧ s.aid.isSome ∧ s.ps.isSome) :
    (create_single_outbound s).isSome := by
  obtain ⟨ha, hp, hi, hal, hps⟩ := h
  obtain ⟨a, ha⟩ := Option.isSome_iff_exists.mp ha
  obtain ⟨p, hp⟩ := Option.isSome_iff_exists.mp hp
  obtain ⟨i, hi⟩ := Option.isSome_iff_exists.mp hi
  obtain ⟨al, hal⟩ := Option.isSome_iff_exists.mp hal
  obtain ⟨psv, hps⟩ := Option.isSome_iff_exists.mp hps
  simp only [create_single_outbound, create_vnext_server_config, ha, hp, hi, hal, hps]
  rfl

lemma length_create_inbounds_config (vmess_servers : List ServerCfg)
    (sp hp : Int) (addr : String) :
    (create_inbounds_config vmess_servers sp hp addr).length = 2 * vmess_servers.length := by
  unfold create_inbounds_config
  generalize vmess_servers.length = n
  induction n with
  | zero => rfl
  | succ k ih =>
      rw [List.range_succ, List.flatMap_append, List.length_append, ih]
      simp
      omega

/-- Closed-form value of `create_routing_config` once the indexing of
`vmess_servers[29]` is known to succeed (spelled out so that claims can be
checked against the literal rule list). -/
lemma create_routing_config_eq (vmess_servers : List ServerCfg)
    (socks_port_start http_port_start : Int) (chosen : ServerCfg)
    (hch : vmess_servers[DEFAULT_OUT_SERVER_INDEX]? = some chosen) :
    create_routing_config vmess_servers socks_port_start http_port_start =
      some ({ domainStrategy := "AsIs",
              rules :=
                [ { type := "field", inboundTag := some ["api"], outboundTag := some "api" },
                  { type := "field", outboundTag := chosen.ps,
                    domain := some ["domain:googleapis.cn", "domain:gstatic.com"] },
                  { type := "field", port := some "443", network := some "udp",
                    outboundTag := some "block" },
                  { type := "field", outboundTag := some "direct",
                    ip := some ["geoip:private"] },
                  { type := "field", outboundTag := some "direct",
                    domain := some ["geosite:cn", "geosite:geolocation-cn"] },
                  { type := "field", outboundTag := some "direct",
                    domain := some ["domain:alidns.com", "domain:doh.pub", "domain:dot.pub",
                                    "domain:360.cn", "domain:onedns.net"] },
                  { type := "field", outboundTag := some "direct", ip := some localDnsIPs },
                  { type := "field", outboundTag := some "direct", ip := some ["geoip:cn"] } ]
                ++ vmess_servers.enum.map (fun (i, server) =>
                     let socks_port : Int := socks_port_start + i
                     let http_port : Int := http_port_start + i
                     { type := "field",
                       inboundTag := some [s!"socks5-{socks_port}", s!"http-{http_port}"],
                       outboundTag := server.ps }) },
            vmess_servers.enum.map (fun (i, server) =>
              let socks_port : Int := socks_port_start + i
              let http_port : Int := http_port_start + i
              (s!"socks5-{socks_port} / http-{http_port}", server.ps))) := by
  unfold create_routing_config
  rw [hch]

/-- C1 (amended): for every list of N valid node records with N ≥ 30 (the
fixed special-domain routing rule indexes node 29, so smaller lists abort
with IndexError before any document is produced), the assembled document
has exactly 2N inbounds, N+2 outbounds and 8+N routing rules. -/
theorem c1_amended_counts (vmess_servers : List ServerCfg) (sp hp : Int) (addr : String)
    (hvalid : ∀ s ∈ vmess_servers,
      s.add.isSome ∧ s.port.isSome ∧ s.id.isSome ∧ s.aid.isSome ∧ s.ps.isSome)
    (hn : 30 ≤ vmess_servers.length) :
    ∃ cfg m, build_v2ray_config vmess_servers sp hp addr = some (cfg, m) ∧
      cfg.inbounds.length = 2 * vmess_servers.length ∧
      cfg.outbounds.length = vmess_servers.length + 2 ∧
      cfg.routing.rules.length = 8 + vmess_servers.length := by
  have h29 : DEFAULT_OUT_SERVER_INDEX < vmess_servers.length := by
    unfold DEFAULT_OUT_SERVER_INDEX
    omega
  have hch : vmess_servers[DEFAULT_OUT_SERVER_INDEX]? =
      some (vmess_servers[DEFAULT_OUT_SERVER_INDEX]) := List.getElem?_eq_getElem h29
  have hrc := create_routing_config_eq vmess_servers sp hp _ hch
  obtain ⟨rc, m, hrc2⟩ : ∃ rc m, create_routing_config vmess_servers sp hp = some (rc, m) :=
    ⟨_, _, hrc⟩
  have hrlen : rc.rules.length = 8 + vmess_servers.length := by
    have hrc3 := hrc2
    rw [hrc] at hrc3
    injection hrc3 with hpair
    have h1 := congrArg Prod.fst hpair
    dsimp at h1
    rw [← h1]
    simp [List.enum_length]
    omega
  obtain ⟨obs, hobs⟩ := optionMapList_isSome create_single_outbound vmess_servers
    (fun a ha => create_single_outbound_isSome a (hvalid a ha))
  have hoblen := optionMapList_length create_single_outbound vmess_servers obs hobs
  obtain ⟨outs, hout2, houtlen⟩ :
      ∃ outs, create_outbounds_config vmess_servers = some outs ∧
        outs.length = vmess_servers.length + 2 := by
    refine ⟨obs ++
      [ { tag := "direct", protocol := "freedom", settings := OutboundSettings.freedom },
        { tag := "block", protocol := "blackhole",
          settings := OutboundSettings.blackhole "http" } ], ?_, ?_⟩
    · unfold create_outbounds_config
      rw [hobs]
      exact rfl
    · simp [hoblen]
  have hbuild : build_v2ray_config vmess_servers sp hp addr =
      some ({ log := create_log_config, dns := create_dns_config,
              inbounds := create_inbounds_config vmess_servers sp hp addr,
              outbounds := outs, routing := rc }, m) := by
    unfold build_v2ray_config
    rw [hrc2, hout2]
  exact ⟨_, _, hbuild, length_create_inbounds_config vmess_servers sp hp addr, houtlen, hrlen⟩

/-- Witness for `c1_amended_counts` at thirty valid nodes. -/
theorem c1_amended_counts_witness :
    (∀ s ∈ sampleServers,
        s.add.isSome ∧ s.port.isSome ∧ s.id.isSome ∧ s.aid.isSome ∧ s.ps.isSome) ∧
    30 ≤ sampleServers.length ∧
    (∃ cfg m, build_v2ray_config sampleServers 50001 51001 "127.0.0.1" = some (cfg, m) ∧
      cfg.inbounds.length = 2 * sampleServers.length ∧
      cfg.outbounds.length = sampleServers.length + 2 ∧
      cfg.routing.rules.length = 8 + sampleServers.length) :=
  ⟨by decide, by decide,
    c1_amended_counts sampleServers 50001 51001 "127.0.0.1" (by decide) (by decide)⟩

/-- C1 counterexample: a list of one valid node (so N ≥ 1 as the claim
demands) makes the assembler crash on `vmess_servers[29]` and produce no
document at all, instead of a document with 2 inbounds, 3 outbounds and 9
routing rules. -/
theorem c1_counterexample_single_node :
    (∀ s ∈ [sampleServer 0],
        s.add.isSome ∧ s.port.isSome ∧ s.id.isSome ∧ s.aid.isSome ∧ s.ps.isSome) ∧
    1 ≤ ([sampleServer 0] : List ServerCfg).length ∧
    build_v2ray_config [sampleServer 0] 50001 51001 "127.0.0.1" = none ∧
    ¬ ∃ cfg m, build_v2ray_config [sampleServer 0] 50001 51001 "127.0.0.1" = some (cfg, m) := by
  refine ⟨by decide, by decide, rfl, ?_⟩
  intro h
  obtain ⟨cfg, m, h⟩ := h
  rw [show build_v2ray_config [sampleServer 0] 50001 51001 "127.0.0.1" = none from rfl] at h
  cases h

/-- C3: the code contains no port-range-overlap validation at all.  With
the spec's own example (5 nodes, socksBase = 50001, httpBase = 50002) the
inbound builder silently emits listeners whose port list contains 50002,
50003, 50004 and 50005 twice each, instead of failing fast. -/
theorem c3_overlap_emits_duplicate_ports :
    (create_inbounds_config (List.replicate 5 ({} : ServerCfg)) 50001 50002 "127.0.0.1").map
        (fun ib => ib.port) =
      [50001, 50002, 50002, 50003, 50003, 50004, 50004, 50005, 50005, 50006] ∧
    ¬ ((create_inbounds_config (List.replicate 5 ({} : ServerCfg)) 50001 50002 "127.0.0.1").map
        (fun ib => ib.port)).Nodup := by
  exact ⟨rfl, by decide⟩

/-- C4: a node record missing the required `"add"` key is not excluded by
the decoder (it contains no field validation), and the later config build
aborts as a whole (`KeyError` in `create_vnext_server_config`) instead of
skipping the node and continuing. -/
theorem c4_missing_required_field_aborts :
    create_vnext_server_config missingAddServer = none ∧
    extract_vmess_servers decodeMissingAdd ["vmess://payload"] = some ([missingAddServer], []) ∧
    build_v2ray_config (missingAddServer :: sampleServers) 50001 51001 "127.0.0.1" = none :=
  ⟨rfl, by decide, rfl⟩

/-- C9: the code never checks display names for emptiness or uniqueness.
With two nodes sharing the display name `"A"` the document is emitted
without any error and its outbound tag list contains `"A"` twice. -/
theorem c9_duplicate_display_names_emitted :
    ((build_v2ray_config dupNameServers 50001 51001 "127.0.0.1").map
        (fun p => (p.1.outbounds.map (fun ob => ob.tag)).count "A")) = some 2 := by
  rfl

/-- The routing layout the spec claims: the 8 fixed prelude rules in this
exact order (api, special-domain towards the designated node, UDP-443
block, private-IP direct, country-local domain categories direct, local
DNS-provider domains direct, local DNS-provider IP literals direct,
country-local IP category direct), followed by one
`{inboundTag: [socksTag, httpTag], outboundTag: node ps}` rule per node in
node-list order. -/
def RoutingLayoutClaim (vmess_servers : List ServerCfg) (sp hp : Int) : Prop :=
  ∃ rc m chosen, create_routing_config vmess_servers sp hp = some (rc, m) ∧
    vmess_servers[DEFAULT_OUT_SERVER_INDEX]? = some chosen ∧
    rc.rules =
      [ { type := "field", inboundTag := some ["api"], outboundTag := some "api" },
        { type := "field", outboundTag := chosen.ps,
          domain := some ["domain:googleapis.cn", "domain:gstatic.com"] },
        { type := "field", port := some "443", network := some "udp",
          outboundTag := some "block" },
        { type := "field", outboundTag := some "direct", ip := some ["geoip:private"] },
        { type := "field", outboundTag := some "direct",
          domain := some ["geosite:cn", "geosite:geolocation-cn"] },
        { type := "field", outboundTag := some "direct",
          domain := some ["domain:alidns.com", "domain:doh.pub", "domain:dot.pub",
                          "domain:360.cn", "domain:onedns.net"] },
        { type := "field", outboundTag := some "direct", ip := some localDnsIPs },
        { type := "field", outboundTag := some "direct", ip := some ["geoip:cn"] } ]
      ++ vmess_servers.enum.map (fun (i, server) =>
           let socks_port : Int := sp + i
           let http_port : Int := hp + i
           { type := "field",
             inboundTag := some [s!"socks5-{socks_port}", s!"http-{http_port}"],
             outboundTag := server.ps })

/-- C2: whenever the routing table is actually produced (the builder indexes
node 29, so this takes at least 30 nodes), its rule list is exactly the
8-rule prelude in the specified order followed by the per-node rules in
node-list order. -/
theorem c2_routing_rule_order (vmess_servers : List ServerCfg) (sp hp : Int)
    (h : 30 ≤ vmess_servers.length) : RoutingLayoutClaim vmess_servers sp hp := by
  have h29 : DEFAULT_OUT_SERVER_INDEX < vmess_servers.length := by
    unfold DEFAULT_OUT_SERVER_INDEX
    omega
  have hch : vmess_servers[DEFAULT_OUT_SERVER_INDEX]? =
      some (vmess_servers[DEFAULT_OUT_SERVER_INDEX]) := List.getElem?_eq_getElem h29
  exact ⟨_, _, _, create_routing_config_eq vmess_servers sp hp _ hch, hch, rfl⟩

/-- Witness for `c2_routing_rule_order` at thirty nodes. -/
theorem c2_routing_rule_order_witness :
    30 ≤ sampleServers.length ∧ RoutingLayoutClaim sampleServers 50001 51001 :=
  ⟨by decide, c2_routing_rule_order sampleServers 50001 51001 (by decide)⟩

lemma enum_map_getElem? {α β : Type} (l : List α) (f : Nat × α → β) (i : Nat)
    (hi : i < l.length) : (l.enum.map f)[i]? = some (f (i, l[i])) := by
  rw [List.getElem?_map, List.getElem?_enum, List.getElem?_eq_getElem hi]
  rfl

/-- The mapping-table shape the spec claims: one entry per node, in order,
keyed by the node's listener tag pair and valued by the node's display
name, in 1:1 correspondence with the per-node routing rules. -/
def MappingTableClaim (vmess_servers : List ServerCfg) (sp hp : Int) : Prop :=
  ∃ rc m, create_routing_config vmess_servers sp hp = some (rc, m) ∧
    m.length = vmess_servers.length ∧
    ∀ i : Nat, i < vmess_servers.length →
      ∃ server, vmess_servers[i]? = some server ∧
        (let socks_port : Int := sp + i
         let http_port : Int := hp + i
         m[i]? = some (s!"socks5-{socks_port} / http-{http_port}", server.ps) ∧
         rc.rules[8 + i]? =
           some { type := "field",
                  inboundTag := some [s!"socks5-{socks_port}", s!"http-{http_port}"],
                  outboundTag := server.ps })

/-- C6: whenever the mapping table is actually produced, it has exactly one
entry per node, in node-list order, keyed
`"socks5-<socksBase+i> / http-<httpBase+i>"`, valued by the node's display
name, and aligned with the per-node routing rule at position 8+i. -/
theorem c6_mapping_table (vmess_servers : List ServerCfg) (sp hp : Int)
    (h : 30 ≤ vmess_servers.length) : MappingTableClaim vmess_servers sp hp := by
  have h29 : DEFAULT_OUT_SERVER_INDEX < vmess_servers.length := by
    unfold DEFAULT_OUT_SERVER_INDEX
    omega
  have hch : vmess_servers[DEFAULT_OUT_SERVER_INDEX]? =
      some (vmess_servers[DEFAULT_OUT_SERVER_INDEX]) := List.getElem?_eq_getElem h29
  refine ⟨_, _, create_routing_config_eq vmess_servers sp hp _ hch, ?_, ?_⟩
  · simp [List.enum_length]
  · intro i hi
    refine ⟨vmess_servers[i], List.getElem?_eq_getElem hi, ?_, ?_⟩
    · exact enum_map_getElem? vmess_servers _ i hi
    · rw [List.getElem?_append_right (by simp)]
      simp only [List.length_cons, List.length_nil]
      have hidx : 8 + i - (0 + 1 + 1 + 1 + 1 + 1 + 1 + 1 + 1) = i := by omega
      rw [hidx]
      exact enum_map_getElem? vmess_servers _ i hi

/-- Witness for `c6_mapping_table` at thirty nodes. -/
theorem c6_mapping_table_witness :
    30 ≤ sampleServers.length ∧ MappingTableClaim sampleServers 50001 51001 :=
  ⟨by decide, c6_mapping_table sampleServers 50001 51001 (by decide)⟩

/-- A decode stub tracing the three payload outcomes: `"ok"` parses,
`"bad-json"` raises one of the exceptions the per-URI clause catches, and
any other payload (such as `"/w=="`, valid base64 of the non-UTF-8 byte
0xFF) raises the uncaught `UnicodeDecodeError`. -/
def decode_vmess_stub (s : String) : DecodeResult :=
  if s = "ok" then DecodeResult.ok (sampleServer 0)
  else if s = "bad-json" then DecodeResult.caught
  else DecodeResult.uncaught

/-- C5: the skip-and-continue behaviour only covers the exception types the
per-URI `except` clause lists (`JSONDecodeError`, `binascii.Error`) — a
corrupt vmess payload of that kind in the middle of the list is indeed
recorded as a skip with the valid neighbours surviving in order — but a
corrupt payload that is valid base64 of non-UTF-8 bytes (e.g. `"/w=="`)
raises `UnicodeDecodeError`, which the clause does not list: it falls to
the function's outer `except Exception` and `sys.exit` aborts the whole
batch with no output, contradicting "it never aborts the batch". -/
theorem c5_corrupt_payload_aborts_batch :
    extract_vmess_servers decode_vmess_stub
        ["vmess://ok", "vmess://bad-json", "vmess://ok"] =
      some ([sampleServer 0, sampleServer 0], ["vmess://bad-json"]) ∧
    extract_vmess_servers decode_vmess_stub
        ["vmess://ok", "vmess:///w==", "vmess://ok"] = none :=
  ⟨by decide, by decide⟩

lemma create_tls_settings_spec (s : ServerCfg) :
    (create_tls_settings s).serverName = s.sni.getD (s.host.getD "") ∧
    (create_tls_settings s).allowInsecure = false ∧
    ((create_tls_settings s).alpn.isSome ↔ ∃ a, s.alpn = some a ∧ a ≠ "") ∧
    (∀ a, s.alpn = some a → a ≠ "" → (create_tls_settings s).alpn = some (a.splitOn ",")) := by
  unfold create_tls_settings
  cases halpn : s.alpn with
  | none => simp
  | some a =>
      by_cases ha : a = ""
      · subst ha
        simp
      · simp [ha]

/-- The TLS-settings shape the spec claims for a node in TLS mode. -/
def TlsSettingsClaim (s : ServerCfg) : Prop :=
  ∃ ob ss t, create_single_outbound s = some ob ∧
    ob.streamSettings = some ss ∧ ss.tlsSettings = some t ∧
    t.serverName = s.sni.getD (s.host.getD "") ∧
    t.allowInsecure = false ∧
    (t.alpn.isSome ↔ ∃ a, s.alpn = some a ∧ a ≠ "") ∧
    (∀ a, s.alpn = some a → a ≠ "" → t.alpn = some (a.splitOn ","))

/-- C7: for every node in TLS mode whose outbound is actually emitted, the
TLS settings block has serverName = sni, else host, else empty;
allowInsecure false always; and an alpn list present iff the node's alpn
value is present and non-empty (then split on commas). -/
theorem c7_tls_server_name_alpn (s : ServerCfg)
    (htls : s.tls = some "tls") (hps : s.ps.isSome)
    (hvn : (create_vnext_server_config s).isSome) : TlsSettingsClaim s := by
  obtain ⟨tagv, hps2⟩ := Option.isSome_iff_exists.mp hps
  obtain ⟨vn, hvn2⟩ := Option.isSome_iff_exists.mp hvn
  obtain ⟨hn1, hn2, hn3, hn4⟩ := create_tls_settings_spec s
  unfold TlsSettingsClaim
  by_cases hws : s.net.getD "tcp" = "ws"
  · simp only [create_single_outbound, hps2, hvn2, htls, Option.getD_some, hws, if_true,
      reduceIte]
    exact ⟨_, _, _, rfl, rfl, rfl, hn1, hn2, hn3, hn4⟩
  · simp only [create_single_outbound, hps2, hvn2, htls, Option.getD_some, hws, if_false,
      reduceIte]
    exact ⟨_, _, _, rfl, rfl, rfl, hn1, hn2, hn3, hn4⟩

/-- A TLS-mode server used for the C7 witness. -/
def tlsServer : ServerCfg :=
  { add := some "example.com", port := some 443, id := some "0000-1111", aid := some 0,
    ps := some "tls-node", tls := some "tls", sni := some "sni.example.com",
    alpn := some "h2,http/1.1" }

/-- Witness for `c7_tls_server_name_alpn` at a concrete TLS node. -/
theorem c7_tls_server_name_alpn_witness :
    tlsServer.tls = some "tls" ∧ tlsServer.ps.isSome ∧
    (create_vnext_server_config tlsServer).isSome ∧ TlsSettingsClaim tlsServer :=
  ⟨rfl, rfl, rfl, c7_tls_server_name_alpn tlsServer rfl rfl rfl⟩

/-- Replaces the `listen` field of every inbound, leaving every other part
of the document untouched. -/
def set_listen_address (addr : String) (cfg : V2rayConfig) : V2rayConfig :=
  { cfg with inbounds := cfg.inbounds.map fun ib => { ib with listen := addr } }

lemma map_set_listen (vmess_servers : List ServerCfg) (sp hp : Int) (a b : String) :
    (create_inbounds_config vmess_servers sp hp a).map (fun ib => { ib with listen := b }) =
      create_inbounds_config vmess_servers sp hp b := by
  unfold create_inbounds_config
  rw [List.map_flatMap]
  rfl

/-- C8: the two documents produced in one run (127.0.0.1 and 0.0.0.0) are
identical in every field except the `listen` field of each inbound:
rewriting only those fields of the local variant yields exactly the LAN
variant (and when one build fails, so does the other). -/
theorem c8_variants_differ_only_in_listen (vmess_servers : List ServerCfg) (sp hp : Int) :
    (build_v2ray_config vmess_servers sp hp "127.0.0.1").map
        (fun p => (set_listen_address "0.0.0.0" p.1, p.2)) =
      build_v2ray_config vmess_servers sp hp "0.0.0.0" := by
  unfold build_v2ray_config
  cases hrc : create_routing_config vmess_servers sp hp with
  | none => rfl
  | some rm =>
      obtain ⟨rc, m⟩ := rm
      cases hob : create_outbounds_config vmess_servers with
      | none => rfl
      | some obs => simp [set_listen_address, map_set_listen]

/-- C10: every emitted inbound (both the SOCKS5 and the HTTP one of each
pair) carries the same settings dict `{auth: noauth, udp: true,
allowTransparent: false}` — so the HTTP inbound also has `udp: true` — and
the same sniffing dict `{enabled: true, destOverride: [http, tls],
routeOnly: false}`. -/
theorem c10_inbound_settings_sniffing (vmess_servers : List ServerCfg) (sp hp : Int)
    (addr : String) (ib : Inbound)
    (h : ib ∈ create_inbounds_config vmess_servers sp hp addr) :
    (ib.protocol = "socks" ∨ ib.protocol = "http") ∧
    ib.settings = { auth := "noauth", udp := true, allowTransparent := false } ∧
    ib.sniffing = { enabled := true, destOverride := ["http", "tls"], routeOnly := false } := by
  unfold create_inbounds_config at h
  rw [List.mem_flatMap] at h
  obtain ⟨i, hi, hmem⟩ := h
  simp only [List.mem_cons, List.not_mem_nil, or_false] at hmem
  rcases hmem with h1 | h1 <;> subst h1 <;> exact ⟨by simp, rfl, rfl⟩

/-- The first inbound emitted for a single sample node. -/
def sampleSocksInbound : Inbound :=
  { tag := "socks5-50001", port := 50001, listen := "127.0.0.1", protocol := "socks",
    sniffing := { enabled := true, destOverride := ["http", "tls"], routeOnly := false },
    settings := { auth := "noauth", udp := true, allowTransparent := false } }

/-- Witness for `c10_inbound_settings_sniffing` at a concrete inbound. -/
theorem c10_inbound_settings_sniffing_witness :
    sampleSocksInbound ∈ create_inbounds_config [sampleServer 0] 50001 51001 "127.0.0.1" ∧
    ((sampleSocksInbound.protocol = "socks" ∨ sampleSocksInbound.protocol = "http") ∧
      sampleSocksInbound.settings =
        { auth := "noauth", udp := true, allowTransparent := false } ∧
      sampleSocksInbound.sniffing =
        { enabled := true, destOverride := ["http", "tls"], routeOnly := false }) :=
  ⟨by decide,
    c10_inbound_settings_sniffing [sampleServer 0] 50001 51001 "127.0.0.1" sampleSocksInbound
      (by decide)⟩
